import Mathlib

/-!
Shallow embedding of the xbstream writer
(storage/innobase/xtrabackup/src/xbstream_write.cc and xbstream.h).

Bytes are modelled as `Nat` values below 256, byte sequences as `List Nat`.
The sink callback of a write handle is modelled as an oracle
`sink : Nat → Bool` giving the success of the n-th sink call made through
the handle; the bytes handed to successful sink calls are recorded, in
order, in the `out` field of the writer state.  Chunk emissions are also
recorded abstractly in a `trace` field, one record per emitted chunk.
-/

namespace XBStream

/-- Group writes smaller than this into a single chunk
(XB_STREAM_MIN_CHUNK_SIZE in xbstream_write.cc). -/
def XB_STREAM_MIN_CHUNK_SIZE : Nat := 10 * 1024 * 1024

/-- Modelled from the spec: FN_REFLEN is defined by the MySQL headers
(my_io.h), which are not part of these sources; the spec fixes it as the
format-wide maximum path length of 4096 bytes. -/
def FN_REFLEN : Nat := 4096

/-- Magic value in a chunk header: the eight ASCII bytes of "XBSTCK01". -/
def XB_STREAM_CHUNK_MAGIC : List Nat :=
  [0x58, 0x42, 0x53, 0x54, 0x43, 0x4B, 0x30, 0x31]

/-- Chunk flag: chunk can be ignored if unknown version/format. -/
def XB_STREAM_FLAG_IGNORABLE : Nat := 0x01

/-- Chunk type byte for payload chunks: ASCII code of P. -/
def XB_CHUNK_TYPE_PAYLOAD : Nat := 0x50

/-- Chunk type byte for sparse chunks: ASCII code of S. -/
def XB_CHUNK_TYPE_SPARSE : Nat := 0x53

/-- Chunk type byte for EOF chunks: ASCII code of E. -/
def XB_CHUNK_TYPE_EOF : Nat := 0x45

/-- One sparse-map entry (ds_sparse_chunk_t from datasink.h): skip that
many implicit zero bytes, then take len payload bytes. -/
structure ds_sparse_chunk_t where
  skip : Nat
  len : Nat
deriving Repr, DecidableEq

/-- int4store of my_byteorder.h: store the low 32 bits of a value as four
little-endian bytes. -/
def int4store (n : Nat) : List Nat :=
  [n % 256, n / 256 % 256, n / 256 ^ 2 % 256, n / 256 ^ 3 % 256]

/-- int8store of my_byteorder.h: store the low 64 bits of a value as eight
little-endian bytes. -/
def int8store (n : Nat) : List Nat :=
  [n % 256, n / 256 % 256, n / 256 ^ 2 % 256, n / 256 ^ 3 % 256,
   n / 256 ^ 4 % 256, n / 256 ^ 5 % 256, n / 256 ^ 6 % 256, n / 256 ^ 7 % 256]

/-- The reflected CRC-32 polynomial 0xEDB88320 (ISO-3309). -/
def crc32_poly : Nat := 0xEDB88320

/-- One bit step of the reflected CRC-32 computation. -/
def crc32_step (c : Nat) : Nat :=
  if c % 2 = 1 then Nat.xor (c / 2) crc32_poly else c / 2

/-- Fold one input byte into the CRC accumulator (eight bit steps). -/
def crc32_byte (c b : Nat) : Nat :=
  crc32_step (crc32_step (crc32_step (crc32_step
    (crc32_step (crc32_step (crc32_step (crc32_step (Nat.xor c b))))))))

/-- crc32_iso3309 of crc_glue.h: incremental CRC-32/ISO-3309 with the
usual pre- and post-inversion, so that a seed of 0 over no bytes gives 0
and updates chain. -/
def crc32_iso3309 (seed : Nat) (bytes : List Nat) : Nat :=
  Nat.xor (bytes.foldl crc32_byte (Nat.xor seed 0xFFFFFFFF)) 0xFFFFFFFF

/-- The chunk type byte chosen by xb_stream_write_chunk: S when the
sparse map is non-empty, P otherwise. -/
def chunkTypeByte (sparse_map_size : Nat) : Nat :=
  if sparse_map_size > 0 then XB_CHUNK_TYPE_SPARSE else XB_CHUNK_TYPE_PAYLOAD

/-- The encoded sparse map: for each entry, int4store of skip then
int4store of len (the loop filling sparse_map_buf in
xb_stream_write_chunk). -/
def encodeSparseMap (sparse_map : List ds_sparse_chunk_t) : List Nat :=
  (sparse_map.map (fun sc => int4store sc.skip ++ int4store sc.len)).flatten

/-- The sum of the skip fields of a sparse map (the offset-advance loop at
the end of xb_stream_write_chunk). -/
def sumSkips (sparse_map : List ds_sparse_chunk_t) : Nat :=
  (sparse_map.map (fun sc => sc.skip)).sum

/-- The header bytes assembled in tmpbuf by xb_stream_write_chunk, in
store order: magic, flags 0, type, path length, path, the sparse-map size
only when the map is non-empty, payload length, payload offset,
checksum. -/
def chunkHeaderBytes (path : List Nat) (len offset checksum : Nat)
    (sparse_map_size : Nat) : List Nat :=
  XB_STREAM_CHUNK_MAGIC ++ [0] ++ [chunkTypeByte sparse_map_size] ++
    int4store path.length ++ path ++
    (if sparse_map_size > 0 then int4store sparse_map_size else []) ++
    int8store len ++ int8store offset ++ int4store checksum

/-- The header bytes assembled in tmpbuf by xb_stream_write_eof: magic,
flags 0, type E, path length, path, and nothing more. -/
def eofChunkBytes (path : List Nat) : List Nat :=
  XB_STREAM_CHUNK_MAGIC ++ [0] ++ [XB_CHUNK_TYPE_EOF] ++
    int4store path.length ++ path

/-- The mutable per-handle state of xb_wstream_file_struct.  path_len is
kept implicitly as path.length (the struct stores strlen of the copied
path).  chunk holds the bytes buffered so far (the region between the
chunk array and chunk_ptr). -/
structure xb_wstream_file_t where
  path : List Nat
  chunk : List Nat
  chunk_free : Nat
  offset : Nat
deriving Repr, DecidableEq

/-- Abstract record of one emitted chunk: its type byte, its payload
bytes and its sparse map. -/
structure ChunkRec where
  ctype : Nat
  payload : List Nat
  sparse_map : List ds_sparse_chunk_t
deriving Repr, DecidableEq

/-- Writer state threaded through the operations: the handle, the number
of sink calls made so far, the byte sequences handed to successful sink
calls, the abstract emission trace, and whether the stream mutex is
currently held. -/
structure WState where
  file : xb_wstream_file_t
  calls : Nat
  out : List (List Nat)
  trace : List ChunkRec
  locked : Bool
deriving Repr, DecidableEq

/-- One call into the sink callback: consults the oracle, counts the
call, and records the bytes when the call succeeds. -/
def sinkCall (sink : Nat → Bool) (st : WState) (bytes : List Nat) :
    WState × Bool :=
  if sink st.calls then
    ({ st with calls := st.calls + 1, out := st.out ++ [bytes] }, true)
  else
    ({ st with calls := st.calls + 1 }, false)

/-- A sink whose every call succeeds. -/
def okSink : Nat → Bool := fun _ => true

/-- xb_stream_write_chunk: build the header, encode the sparse map,
checksum the sparse-map bytes then the payload, take the mutex, issue the
three sink calls (header, sparse map, payload), and on success advance the
offset by the skips of the sparse map plus the payload length.  Returns
the new state and the int result of the function (0 success, 1 failure);
any sink failure aborts the emission, releases the mutex and leaves the
handle unchanged. -/
def xb_stream_write_chunk (sink : Nat → Bool) (st : WState)
    (buf : List Nat) (sparse_map : List ds_sparse_chunk_t) : WState × Nat :=
  let sparseBytes := encodeSparseMap sparse_map
  let checksum := crc32_iso3309 (crc32_iso3309 0 sparseBytes) buf
  let header := chunkHeaderBytes st.file.path buf.length st.file.offset
    checksum sparse_map.length
  let st0 := { st with locked := true }
  match sinkCall sink st0 header with
  | (st1, false) => ({ st1 with locked := false }, 1)
  | (st1, true) =>
    match sinkCall sink st1 sparseBytes with
    | (st2, false) => ({ st2 with locked := false }, 1)
    | (st2, true) =>
      match sinkCall sink st2 buf with
      | (st3, false) => ({ st3 with locked := false }, 1)
      | (st3, true) =>
        ({ st3 with
            file := { st3.file with
              offset := st3.file.offset + sumSkips sparse_map + buf.length },
            trace := st3.trace ++ [⟨chunkTypeByte sparse_map.length, buf, sparse_map⟩],
            locked := false }, 0)

/-- xb_stream_flush: nothing to do when the buffer is empty; otherwise
emit the buffered bytes as one plain chunk and, on success, reset the
buffer to empty with the full XB_STREAM_MIN_CHUNK_SIZE free. -/
def xb_stream_flush (sink : Nat → Bool) (st : WState) : WState × Nat :=
  if st.file.chunk = [] then (st, 0)
  else
    match xb_stream_write_chunk sink st st.file.chunk [] with
    | (st1, 0) =>
      ({ st1 with file := { st1.file with
          chunk := [], chunk_free := XB_STREAM_MIN_CHUNK_SIZE } }, 0)
    | (st1, _) => (st1, 1)

/-- xb_stream_write_data: writes short enough to fit strictly below the
free space are appended to the buffer; otherwise flush first, then emit
the given bytes directly as one chunk with no sparse map. -/
def xb_stream_write_data (sink : Nat → Bool) (st : WState)
    (buf : List Nat) : WState × Nat :=
  if buf.length < st.file.chunk_free then
    ({ st with file := { st.file with
        chunk := st.file.chunk ++ buf,
        chunk_free := st.file.chunk_free - buf.length } }, 0)
  else
    match xb_stream_flush sink st with
    | (st1, 0) => xb_stream_write_chunk sink st1 buf []
    | (st1, _) => (st1, 1)

/-- xb_stream_write_sparse_data: always flush the buffer first, then emit
the given bytes and sparse map as one chunk. -/
def xb_stream_write_sparse_data (sink : Nat → Bool) (st : WState)
    (buf : List Nat) (sparse_map : List ds_sparse_chunk_t) : WState × Nat :=
  match xb_stream_flush sink st with
  | (st1, 0) => xb_stream_write_chunk sink st1 buf sparse_map
  | (st1, _) => (st1, 1)

/-- xb_stream_write_eof: take the mutex, write the EOF header (magic,
flags, type E, path length, path) in a single sink call, release the
mutex.  The offset is not touched. -/
def xb_stream_write_eof (sink : Nat → Bool) (st : WState) : WState × Nat :=
  let st0 := { st with locked := true }
  match sinkCall sink st0 (eofChunkBytes st0.file.path) with
  | (st1, true) =>
    ({ st1 with
        trace := st1.trace ++ [⟨XB_CHUNK_TYPE_EOF, [], []⟩],
        locked := false }, 0)
  | (st1, false) => ({ st1 with locked := false }, 1)

/-- xb_stream_write_close: flush, then (only when the flush succeeded,
by the short-circuit of the C disjunction) emit the EOF chunk; return 0
only when both steps succeeded. -/
def xb_stream_write_close (sink : Nat → Bool) (st : WState) : WState × Nat :=
  match xb_stream_flush sink st with
  | (st1, 0) =>
    match xb_stream_write_eof sink st1 with
    | (st2, 0) => (st2, 0)
    | (st2, _) => (st2, 1)
  | (st1, _) => (st1, 1)

/-- xb_stream_write_open: reject paths longer than FN_REFLEN, otherwise
return a fresh zero-filled handle holding a copy of the path, offset 0 and
the full coalescing buffer free. -/
def xb_stream_write_open (path : List Nat) : Option xb_wstream_file_t :=
  if path.length > FN_REFLEN then none
  else some { path := path, chunk := [], chunk_free := XB_STREAM_MIN_CHUNK_SIZE,
              offset := 0 }

/-- The writer state right after a successful open: no sink calls made,
nothing emitted, mutex not held. -/
def initState (f : xb_wstream_file_t) : WState :=
  { file := f, calls := 0, out := [], trace := [], locked := false }

/-- A data-write operation issued against a handle, for reasoning about
sequences of writes. -/
inductive Op where
  | write (buf : List Nat)
  | writeSparse (buf : List Nat) (sparse_map : List ds_sparse_chunk_t)
deriving Repr

/-- Apply one operation with the always-succeeding sink, keeping the
resulting state. -/
def runOp (st : WState) : Op → WState
  | Op.write buf => (xb_stream_write_data okSink st buf).1
  | Op.writeSparse buf m => (xb_stream_write_sparse_data okSink st buf m).1

/-- Apply a sequence of operations with the always-succeeding sink. -/
def runOps (st : WState) : List Op → WState
  | [] => st
  | op :: ops => runOps (runOp st op) ops

/-- The contribution of one emitted chunk to the handle offset: its
payload length plus the skips of its sparse map. -/
def chunkAdvance (c : ChunkRec) : Nat :=
  c.payload.length + sumSkips c.sparse_map

/-- Sum of the offset contributions of the data chunks (every chunk that
is not an EOF chunk) of a trace. -/
def dataSum (tr : List ChunkRec) : Nat :=
  ((tr.filter (fun c => c.ctype ≠ XB_CHUNK_TYPE_EOF)).map chunkAdvance).sum

/-! ### Shared helper lemmas -/

/-- CRC of no bytes with seed 0 is 0. -/
theorem crc32_iso3309_nil : crc32_iso3309 0 [] = 0 := by decide

/-- Normal form of one chunk emission when every sink call succeeds. -/
theorem write_chunk_okSink (st : WState) (buf : List Nat)
    (m : List ds_sparse_chunk_t) :
    xb_stream_write_chunk okSink st buf m =
      ({ file := { st.file with
            offset := st.file.offset + sumSkips m + buf.length },
         calls := st.calls + 3,
         out := st.out ++
           [chunkHeaderBytes st.file.path buf.length st.file.offset
              (crc32_iso3309 (crc32_iso3309 0 (encodeSparseMap m)) buf) m.length,
            encodeSparseMap m, buf],
         trace := st.trace ++ [⟨chunkTypeByte m.length, buf, m⟩],
         locked := false }, 0) := by
  simp [xb_stream_write_chunk, sinkCall, okSink, List.append_assoc]

/-- Normal form of the EOF emission when every sink call succeeds. -/
theorem eof_okSink (st : WState) :
    xb_stream_write_eof okSink st =
      ({ st with
          calls := st.calls + 1,
          out := st.out ++ [eofChunkBytes st.file.path],
          trace := st.trace ++ [⟨XB_CHUNK_TYPE_EOF, [], []⟩],
          locked := false }, 0) := by
  simp [xb_stream_write_eof, sinkCall, okSink]

/-- Normal form of a flush when every sink call succeeds: nothing happens
on an empty buffer, otherwise the buffered bytes go out as one plain
chunk and the buffer is reset. -/
theorem flush_okSink (st : WState) :
    xb_stream_flush okSink st =
      (if st.file.chunk = [] then (st, 0)
       else
        ({ file := { st.file with
              chunk := [],
              chunk_free := XB_STREAM_MIN_CHUNK_SIZE,
              offset := st.file.offset + st.file.chunk.length },
           calls := st.calls + 3,
           out := st.out ++
             [chunkHeaderBytes st.file.path st.file.chunk.length st.file.offset
                (crc32_iso3309 0 st.file.chunk) 0, [], st.file.chunk],
           trace := st.trace ++ [⟨XB_CHUNK_TYPE_PAYLOAD, st.file.chunk, []⟩],
           locked := false }, 0)) := by
  by_cases h : st.file.chunk = []
  · simp [xb_stream_flush, h]
  · simp [xb_stream_flush, h, write_chunk_okSink, encodeSparseMap, sumSkips,
      chunkTypeByte, crc32_iso3309_nil]

/-- No chunk type byte produced by the writer is the EOF type byte. -/
theorem chunkTypeByte_ne_eof (k : Nat) :
    chunkTypeByte k ≠ XB_CHUNK_TYPE_EOF := by
  by_cases h : 0 < k <;>
    simp [chunkTypeByte, h, XB_CHUNK_TYPE_EOF, XB_CHUNK_TYPE_SPARSE,
      XB_CHUNK_TYPE_PAYLOAD]

/-- Literal-form restatement of chunkTypeByte_ne_eof, for rewriting goals
in which the EOF constant has been unfolded. -/
theorem chunkTypeByte_ne_eof_lit (k : Nat) : ¬ chunkTypeByte k = 69 := by
  have := chunkTypeByte_ne_eof k
  simpa [XB_CHUNK_TYPE_EOF] using this

/-- The offset contribution of a trace distributes over append. -/
theorem dataSum_append (a b : List ChunkRec) :
    dataSum (a ++ b) = dataSum a + dataSum b := by
  simp [dataSum, List.filter_append]

/-- The empty trace contributes nothing to the offset. -/
theorem dataSum_nil : dataSum [] = 0 := rfl

/-- Offset contribution of a trace with one more chunk in front: an EOF
chunk contributes nothing, a data chunk its advance. -/
theorem dataSum_cons (c : ChunkRec) (tr : List ChunkRec) :
    dataSum (c :: tr) =
      (if c.ctype = XB_CHUNK_TYPE_EOF then 0 else chunkAdvance c) +
        dataSum tr := by
  by_cases h : c.ctype = XB_CHUNK_TYPE_EOF <;>
    simp [dataSum, List.filter, chunkAdvance, h]

/-- One write operation preserves the accounting invariant tying the
handle offset to the emission trace. -/
theorem runOp_offset (st : WState) (op : Op)
    (h : st.file.offset = dataSum st.trace) :
    (runOp st op).file.offset = dataSum (runOp st op).trace := by
  cases op with
  | write buf =>
    by_cases hb : buf.length < st.file.chunk_free
    · simpa [runOp, xb_stream_write_data, hb] using h
    · by_cases hc : st.file.chunk = [] <;>
        simp [runOp, xb_stream_write_data, hb, flush_okSink, hc,
          write_chunk_okSink, dataSum_append, dataSum_cons, dataSum_nil,
          chunkTypeByte_ne_eof, chunkTypeByte_ne_eof_lit, chunkAdvance,
          chunkTypeByte, sumSkips, XB_CHUNK_TYPE_EOF, XB_CHUNK_TYPE_PAYLOAD,
          h] <;> omega
  | writeSparse buf m =>
    by_cases hc : st.file.chunk = [] <;>
      simp [runOp, xb_stream_write_sparse_data, flush_okSink, hc,
        write_chunk_okSink, dataSum_append, dataSum_cons, dataSum_nil,
        chunkTypeByte_ne_eof, chunkTypeByte_ne_eof_lit, chunkAdvance,
        sumSkips, XB_CHUNK_TYPE_EOF, XB_CHUNK_TYPE_PAYLOAD, h] <;> omega

/-- Any sequence of write operations preserves the accounting invariant
tying the handle offset to the emission trace. -/
theorem runOps_offset (ops : List Op) : ∀ st : WState,
    st.file.offset = dataSum st.trace →
    (runOps st ops).file.offset = dataSum (runOps st ops).trace := by
  induction ops with
  | nil => intro st h; simpa [runOps] using h
  | cons op ops ih =>
    intro st h
    simpa [runOps] using ih _ (runOp_offset st op h)

/-! ### Claim theorems -/

/-- Claim C1: every data chunk emitted by xb_stream_write_chunk under a
succeeding sink consists, in order, of the 8-byte magic, a flags byte, a
type byte, the 4-byte little-endian path length, the path bytes, the
4-byte little-endian sparse-map size exactly when the map is non-empty,
the 8-byte little-endian payload length, the 8-byte little-endian payload
offset, the 4-byte little-endian checksum, the encoded sparse map as
little-endian (skip, len) pairs, then the payload; the magic, flags and
type bytes sit at the fixed offsets 0, 8 and 9 of the chunk. -/
theorem write_chunk_wire_layout (st : WState) (buf : List Nat)
    (m : List ds_sparse_chunk_t) (ck : Nat) :
    (xb_stream_write_chunk okSink st buf m).1.out =
      st.out ++
        [chunkHeaderBytes st.file.path buf.length st.file.offset
           (crc32_iso3309 (crc32_iso3309 0 (encodeSparseMap m)) buf) m.length,
         encodeSparseMap m, buf] ∧
    chunkHeaderBytes st.file.path buf.length st.file.offset ck m.length ++
        encodeSparseMap m ++ buf =
      XB_STREAM_CHUNK_MAGIC ++ [0] ++ [chunkTypeByte m.length] ++
        int4store st.file.path.length ++ st.file.path ++
        (if 0 < m.length then int4store m.length else []) ++
        int8store buf.length ++ int8store st.file.offset ++ int4store ck ++
        encodeSparseMap m ++ buf ∧
    encodeSparseMap m =
      (m.map (fun sc => int4store sc.skip ++ int4store sc.len)).flatten ∧
    (chunkHeaderBytes st.file.path buf.length st.file.offset ck m.length ++
        encodeSparseMap m ++ buf).take 8 = XB_STREAM_CHUNK_MAGIC ∧
    (chunkHeaderBytes st.file.path buf.length st.file.offset ck m.length ++
        encodeSparseMap m ++ buf).getD 8 255 = 0 ∧
    (chunkHeaderBytes st.file.path buf.length st.file.offset ck m.length ++
        encodeSparseMap m ++ buf).getD 9 255 = chunkTypeByte m.length := by
  refine ⟨by simp [write_chunk_okSink], ?_, rfl, ?_, ?_, ?_⟩ <;>
    simp [chunkHeaderBytes, XB_STREAM_CHUNK_MAGIC, int4store, List.append_assoc]

/-- Claim C2: the checksum stored in an emitted chunk is the ISO-3309
CRC-32 with seed 0 over the encoded sparse-map bytes chained over the
payload bytes; the CRC of no bytes is 0, and for the 5 payload bytes of
"hello" with an empty map the stored checksum is 0x3610A686. -/
theorem write_chunk_checksum (st : WState) (buf : List Nat)
    (m : List ds_sparse_chunk_t) :
    (xb_stream_write_chunk okSink st buf m).1.out =
      st.out ++
        [chunkHeaderBytes st.file.path buf.length st.file.offset
           (crc32_iso3309 (crc32_iso3309 0 (encodeSparseMap m)) buf) m.length,
         encodeSparseMap m, buf] ∧
    crc32_iso3309 0 [] = 0 ∧
    crc32_iso3309 (crc32_iso3309 0 (encodeSparseMap []))
        [104, 101, 108, 108, 111] = 0x3610A686 :=
  ⟨by simp [write_chunk_okSink], crc32_iso3309_nil, by decide⟩

/-- Claim C3: a write strictly smaller than the free space of the
coalescing buffer is appended to the buffer and emits nothing (so a
zero-length write emits no chunk and changes nothing); any other write
first flushes the buffer, emitting one payload chunk exactly when the
buffer is non-empty, and then emits the given bytes directly as one
payload chunk that does not pass through the buffer. -/
theorem write_data_buffering (st : WState) (buf : List Nat)
    (h : 0 < st.file.chunk_free) :
    xb_stream_write_data okSink st buf =
      (if buf.length < st.file.chunk_free then
        ({ st with file := { st.file with
            chunk := st.file.chunk ++ buf,
            chunk_free := st.file.chunk_free - buf.length } }, 0)
       else
        ({ file := { st.file with
              chunk := [],
              chunk_free := if st.file.chunk = [] then st.file.chunk_free
                            else XB_STREAM_MIN_CHUNK_SIZE,
              offset := st.file.offset + st.file.chunk.length + buf.length },
           calls := st.calls + (if st.file.chunk = [] then 3 else 6),
           out := st.out ++
             (if st.file.chunk = [] then []
              else [chunkHeaderBytes st.file.path st.file.chunk.length
                      st.file.offset (crc32_iso3309 0 st.file.chunk) 0, [],
                    st.file.chunk]) ++
             [chunkHeaderBytes st.file.path buf.length
                (st.file.offset + st.file.chunk.length)
                (crc32_iso3309 0 buf) 0, [], buf],
           trace := st.trace ++
             (if st.file.chunk = [] then []
              else [⟨XB_CHUNK_TYPE_PAYLOAD, st.file.chunk, []⟩]) ++
             [⟨XB_CHUNK_TYPE_PAYLOAD, buf, []⟩],
           locked := false }, 0)) ∧
    xb_stream_write_data okSink st [] = (st, 0) := by
  constructor
  · by_cases hb : buf.length < st.file.chunk_free
    · simp [xb_stream_write_data, hb]
    · by_cases hc : st.file.chunk = [] <;>
        simp [xb_stream_write_data, hb, flush_okSink, hc, write_chunk_okSink,
          encodeSparseMap, sumSkips, chunkTypeByte, crc32_iso3309_nil,
          List.append_assoc]
  · simp [xb_stream_write_data, h]

/-- Witness for claim C3 at a concrete handle with one free byte: the
hypothesis holds and a zero-length write leaves the state untouched. -/
theorem write_data_buffering_witness :
    0 < (initState ⟨[97], [], 1, 0⟩).file.chunk_free ∧
    xb_stream_write_data okSink (initState ⟨[97], [], 1, 0⟩) [] =
      (initState ⟨[97], [], 1, 0⟩, 0) :=
  ⟨by decide, (write_data_buffering (initState ⟨[97], [], 1, 0⟩) []
      (by decide)).2⟩

/-- Claim C4: a successful chunk emission advances the handle offset by
the payload length plus the sum of the skip values of its sparse map, so
from any state satisfying the accounting invariant, after any sequence of
writes the offset equals the summed contributions of the data chunks of
the emission trace. -/
theorem offset_accounting (st : WState) (ops : List Op)
    (h : st.file.offset = dataSum st.trace) :
    (∀ (buf : List Nat) (m : List ds_sparse_chunk_t),
      (xb_stream_write_chunk okSink st buf m).1.file.offset =
        st.file.offset + buf.length + sumSkips m) ∧
    (runOps st ops).file.offset = dataSum (runOps st ops).trace := by
  constructor
  · intro buf m
    simp [write_chunk_okSink]
    omega
  · exact runOps_offset ops st h

/-- Witness for claim C4: on a fresh handle, a sparse write of the two
bytes AB with map entries (1024, 1) and (0, 1) satisfies the accounting
invariant and leaves the offset at 1026. -/
theorem offset_accounting_witness :
    (initState ⟨[115], [], XB_STREAM_MIN_CHUNK_SIZE, 0⟩).file.offset =
      dataSum (initState ⟨[115], [], XB_STREAM_MIN_CHUNK_SIZE, 0⟩).trace ∧
    (runOps (initState ⟨[115], [], XB_STREAM_MIN_CHUNK_SIZE, 0⟩)
        [Op.writeSparse [65, 66] [⟨1024, 1⟩, ⟨0, 1⟩]]).file.offset =
      dataSum (runOps (initState ⟨[115], [], XB_STREAM_MIN_CHUNK_SIZE, 0⟩)
        [Op.writeSparse [65, 66] [⟨1024, 1⟩, ⟨0, 1⟩]]).trace ∧
    (runOps (initState ⟨[115], [], XB_STREAM_MIN_CHUNK_SIZE, 0⟩)
        [Op.writeSparse [65, 66] [⟨1024, 1⟩, ⟨0, 1⟩]]).file.offset = 1026 :=
  ⟨rfl,
   (offset_accounting (initState ⟨[115], [], XB_STREAM_MIN_CHUNK_SIZE, 0⟩)
      [Op.writeSparse [65, 66] [⟨1024, 1⟩, ⟨0, 1⟩]] rfl).2,
   by rfl⟩

/-- Claim C5: a chunk emission returns success exactly when all three
sink calls succeed; on any sink failure the emission is aborted with
result 1, the handle (its offset included) is left unchanged, nothing is
added to the trace, and the mutex is released. -/
theorem write_chunk_sink_failure (sink : Nat → Bool) (st : WState)
    (buf : List Nat) (m : List ds_sparse_chunk_t) :
    (xb_stream_write_chunk sink st buf m).2 =
      (if sink st.calls && sink (st.calls + 1) && sink (st.calls + 2)
       then 0 else 1) ∧
    (xb_stream_write_chunk sink st buf m).1.file =
      (if sink st.calls && sink (st.calls + 1) && sink (st.calls + 2)
       then { st.file with offset := st.file.offset + sumSkips m + buf.length }
       else st.file) ∧
    (xb_stream_write_chunk sink st buf m).1.trace =
      (if sink st.calls && sink (st.calls + 1) && sink (st.calls + 2)
       then st.trace ++ [⟨chunkTypeByte m.length, buf, m⟩]
       else st.trace) ∧
    (xb_stream_write_chunk sink st buf m).1.locked = false := by
  cases h0 : sink st.calls <;> cases h1 : sink (st.calls + 1) <;>
    cases h2 : sink (st.calls + 2) <;>
    simp [xb_stream_write_chunk, sinkCall, h0, h1, h2]

/-- Claim C6: under a succeeding sink, closing a handle flushes the
buffer exactly once (emitting one payload chunk exactly when the buffer
is non-empty) and then emits exactly one EOF chunk, whose bytes are the
magic, the zero flags byte, the type byte E, the 4-byte little-endian
path length and the path, and nothing more (14 bytes plus the path). -/
theorem close_flush_then_eof (st : WState) :
    xb_stream_write_close okSink st =
      ({ file := { st.file with
            chunk := [],
            chunk_free := if st.file.chunk = [] then st.file.chunk_free
                          else XB_STREAM_MIN_CHUNK_SIZE,
            offset := st.file.offset + st.file.chunk.length },
         calls := st.calls + (if st.file.chunk = [] then 1 else 4),
         out := st.out ++
           (if st.file.chunk = [] then []
            else [chunkHeaderBytes st.file.path st.file.chunk.length
                    st.file.offset (crc32_iso3309 0 st.file.chunk) 0, [],
                  st.file.chunk]) ++
           [eofChunkBytes st.file.path],
         trace := st.trace ++
           (if st.file.chunk = [] then []
            else [⟨XB_CHUNK_TYPE_PAYLOAD, st.file.chunk, []⟩]) ++
           [⟨XB_CHUNK_TYPE_EOF, [], []⟩],
         locked := false }, 0) ∧
    eofChunkBytes st.file.path =
      XB_STREAM_CHUNK_MAGIC ++ [0] ++ [XB_CHUNK_TYPE_EOF] ++
        int4store st.file.path.length ++ st.file.path ∧
    (eofChunkBytes st.file.path).length = 14 + st.file.path.length := by
  obtain ⟨⟨p, c, cf, o⟩, cs, ou, tr, lk⟩ := st
  refine ⟨?_, rfl, ?_⟩
  · by_cases hc : c = []
    · subst hc
      simp [xb_stream_write_close, flush_okSink, eof_okSink]
    · simp [xb_stream_write_close, flush_okSink, hc, eof_okSink,
        List.append_assoc]
  · simp [eofChunkBytes, XB_STREAM_CHUNK_MAGIC, int4store]
    omega

/-- Claim C7: a sparse write always flushes the coalescing buffer first
and then emits exactly one chunk carrying the given bytes and sparse map;
the type byte of that chunk is S exactly when the map has at least one
entry, and a zero-entry map yields the payload type byte P. -/
theorem write_sparse_flush_and_type (st : WState) (buf : List Nat)
    (m : List ds_sparse_chunk_t) :
    xb_stream_write_sparse_data okSink st buf m =
      ({ file := { st.file with
            chunk := [],
            chunk_free := if st.file.chunk = [] then st.file.chunk_free
                          else XB_STREAM_MIN_CHUNK_SIZE,
            offset := st.file.offset + st.file.chunk.length + sumSkips m +
              buf.length },
         calls := st.calls + (if st.file.chunk = [] then 3 else 6),
         out := st.out ++
           (if st.file.chunk = [] then []
            else [chunkHeaderBytes st.file.path st.file.chunk.length
                    st.file.offset (crc32_iso3309 0 st.file.chunk) 0, [],
                  st.file.chunk]) ++
           [chunkHeaderBytes st.file.path buf.length
              (st.file.offset + st.file.chunk.length)
              (crc32_iso3309 (crc32_iso3309 0 (encodeSparseMap m)) buf)
              m.length,
            encodeSparseMap m, buf],
         trace := st.trace ++
           (if st.file.chunk = [] then []
            else [⟨XB_CHUNK_TYPE_PAYLOAD, st.file.chunk, []⟩]) ++
           [⟨chunkTypeByte m.length, buf, m⟩],
         locked := false }, 0) ∧
    (chunkTypeByte m.length = XB_CHUNK_TYPE_SPARSE ↔ 0 < m.length) ∧
    chunkTypeByte 0 = XB_CHUNK_TYPE_PAYLOAD := by
  refine ⟨?_, ?_, rfl⟩
  · by_cases hc : st.file.chunk = [] <;>
      simp [xb_stream_write_sparse_data, flush_okSink, hc, write_chunk_okSink,
        List.append_assoc]
  · by_cases hm : 0 < m.length <;>
      simp [chunkTypeByte, hm, XB_CHUNK_TYPE_SPARSE, XB_CHUNK_TYPE_PAYLOAD]

/-- Claim C8: opening a handle fails exactly when the path length exceeds
FN_REFLEN; a path of exactly FN_REFLEN bytes is accepted; on success the
handle holds a copy of the path, offset 0, an empty buffer and the full
coalescing space of XB_STREAM_MIN_CHUNK_SIZE, which is 10 MiB. -/
theorem open_path_validation (path : List Nat) :
    (xb_stream_write_open path = none ↔ FN_REFLEN < path.length) ∧
    xb_stream_write_open path =
      (if FN_REFLEN < path.length then none
       else some { path := path, chunk := [],
                   chunk_free := XB_STREAM_MIN_CHUNK_SIZE, offset := 0 }) ∧
    xb_stream_write_open (List.replicate FN_REFLEN 97) =
      some { path := List.replicate FN_REFLEN 97, chunk := [],
             chunk_free := XB_STREAM_MIN_CHUNK_SIZE, offset := 0 } ∧
    XB_STREAM_MIN_CHUNK_SIZE = 10 * 1024 * 1024 := by
  refine ⟨?_, ?_, ?_, rfl⟩
  · by_cases h : FN_REFLEN < path.length <;> simp [xb_stream_write_open, h]
  · by_cases h : FN_REFLEN < path.length <;> simp [xb_stream_write_open, h]
  · simp [xb_stream_write_open]

/-- Claim C10: the flags byte of every chunk the writer emits, data and
EOF alike, is 0, and in particular its IGNORABLE bit is clear. -/
theorem writer_flags_zero (st : WState) (buf : List Nat)
    (m : List ds_sparse_chunk_t) (p : List Nat) (len off ck k : Nat) :
    (xb_stream_write_chunk okSink st buf m).1.out =
      st.out ++
        [chunkHeaderBytes st.file.path buf.length st.file.offset
           (crc32_iso3309 (crc32_iso3309 0 (encodeSparseMap m)) buf) m.length,
         encodeSparseMap m, buf] ∧
    (xb_stream_write_eof okSink st).1.out =
      st.out ++ [eofChunkBytes st.file.path] ∧
    (chunkHeaderBytes p len off ck k).getD 8 255 = 0 ∧
    (eofChunkBytes p).getD 8 255 = 0 ∧
    Nat.land ((chunkHeaderBytes p len off ck k).getD 8 255)
      XB_STREAM_FLAG_IGNORABLE = 0 ∧
    Nat.land ((eofChunkBytes p).getD 8 255) XB_STREAM_FLAG_IGNORABLE = 0 := by
  have hland : Nat.land 0 1 = 0 := by decide
  refine ⟨by simp [write_chunk_okSink], by simp [eof_okSink], ?_, ?_, ?_, ?_⟩ <;>
    simp [chunkHeaderBytes, eofChunkBytes, XB_STREAM_CHUNK_MAGIC, int4store,
      XB_STREAM_FLAG_IGNORABLE, List.append_assoc, hland]

end XBStream
